import Mathlib

/-!
Verification development for the `PtAnnotator3DWidget` of the PtAnnotator3D
repository (file `src/ptannotator3d/_ptannotator3d.py`).

The widget's data-handling logic is shallowly embedded below:

* Python strings are modelled as `List Char`;
* Python floats are modelled as `ℚ` (every CSV value the program writes is a
  decimal literal produced by `repr`, and CPython's float-to-`repr`-to-float
  round trip is exact, so rational arithmetic is a faithful model of the
  values the program reads back);
* `np.random.randint(b)` is modelled by an oracle draw `r : Nat` reduced
  modulo the bound, and raises (`Option.none`) when the bound is not
  positive, exactly as numpy does;
* fallible operations return `Option`, `none` standing for a raised
  exception.

Field and function names follow the Python source wherever Lean allows.
-/

set_option autoImplicit false

namespace PtAnnotator3D

/-- A point: the three float coordinates `(axis-0, axis-1, axis-2)`. -/
abbrev Pt := ℚ × ℚ × ℚ

/-- A triple of natural numbers (shapes, offsets, extents). -/
abbrev Triple := Nat × Nat × Nat

/-- Product of the three components, models `np.prod([spin.value for spin in self.chunk_spins])`. -/
def prod3 (t : Triple) : Nat := t.1 * t.2.1 * t.2.2

/-! ### Decimal digits: parsing (Python `int(...)`) and printing (`str`/`format`) -/

/-- The decimal digit character for `n % 10`-style values; total, returning `9`
for inputs above `9` (only ever applied to values below `10`). -/
def digitChar : Nat → Char
  | 0 => '0' | 1 => '1' | 2 => '2' | 3 => '3' | 4 => '4'
  | 5 => '5' | 6 => '6' | 7 => '7' | 8 => '8' | _ => '9'

/-- Is `c` an ASCII decimal digit? -/
def isDigitChar (c : Char) : Bool := '0' ≤ c && c ≤ '9'

/-- Numeric value of a digit character. -/
def digitVal (c : Char) : Nat := c.toNat - '0'.toNat

/-- Accumulating decimal parser over a digit string; fails on a non-digit. -/
def parseDigits? : Nat → List Char → Option Nat
  | acc, [] => some acc
  | acc, c :: cs =>
      if isDigitChar c then parseDigits? (acc * 10 + digitVal c) cs else none

/-- Python `int(s)` for an unsigned literal: one or more decimal digits.
(Python also tolerates surrounding whitespace and inner underscores; the
program never writes such strings, so they are not modelled.) -/
def parseNat? : List Char → Option Nat
  | [] => none
  | c :: cs => parseDigits? 0 (c :: cs)

/-- Python `int(s)`: an optional sign followed by one or more decimal digits. -/
def pyInt? (cs : List Char) : Option Int :=
  if cs.head? = some '-' then (parseNat? cs.tail).map (fun n : Nat => -(n : Int))
  else if cs.head? = some '+' then (parseNat? cs.tail).map (fun n : Nat => (n : Int))
  else (parseNat? cs).map (fun n : Nat => (n : Int))

/-- Decimal digits of `n`, most significant first (Python `str(n)` for `n ≥ 0`). -/
def natRepr (n : Nat) : List Char :=
  if h : n < 10 then [digitChar n]
  else natRepr (n / 10) ++ [digitChar (n % 10)]
termination_by n
decreasing_by exact Nat.div_lt_self (by omega) (by omega)

/-- Python `str(i)` for an integer. -/
def intRepr (i : Int) : List Char :=
  if i < 0 then '-' :: natRepr (-i).toNat else natRepr i.toNat

/-- Left-pad a digit string with zeros up to width `w`. -/
def padZeros (w : Nat) (ds : List Char) : List Char :=
  List.replicate (w - ds.length) '0' ++ ds

/-- Python `f"{i:04d}"`: zero-padded to at least four characters, the sign
(if any) placed before the padding. -/
def pyFormat04d (i : Int) : List Char :=
  if i < 0 then '-' :: padZeros 3 (natRepr (-i).toNat) else padZeros 4 (natRepr i.toNat)

/-! ### The dataset and the chunk generator -/

/-- The loaded dataset (`self.data`): `no_channels` is true when the array has
three axes; `extents` are the three spatial extents, i.e. `self.shape` when
`no_channels` and `self.shape[1:4]` otherwise. -/
structure Dataset where
  no_channels : Bool
  extents : Triple
deriving DecidableEq

/-- `np.random.randint(bound)`: raises `ValueError` (`none`) unless the bound is
positive, otherwise returns a value in `[0, bound)`; the draw is determined by
an oracle `r` reduced modulo the bound, so every admissible value is reachable. -/
def npRandint (bound : Int) (r : Nat) : Option Nat :=
  if 0 < bound then some (r % bound.toNat) else none

/-- One yielded chunk: the slicing is fully determined by the channel index
(`none` on a channel-less dataset), the optional colocalisation channel
(`None` in the source when the two channel indices coincide), the offset and
the per-axis slice extents, so the array contents are represented by this
descriptor.  `points` is the in-bounds point subset yielded with the chunk. -/
structure Chunk where
  channel : Option Nat
  channel_coloc : Option Nat
  offset : Triple
  dims : Triple
  points : List Pt
deriving DecidableEq

/-- The point filter of `generator` (lines 299-305): strict inequalities
`x < px < x + dx`, `y < py < y + dy`, `z < pz < z + dz`. -/
def in_open_box (x y z dx dy dz : Nat) (p : Pt) : Bool :=
  decide ((x : ℚ) < p.1) && decide (p.1 < (x : ℚ) + (dx : ℚ)) &&
  decide ((y : ℚ) < p.2.1) && decide (p.2.1 < (y : ℚ) + (dy : ℚ)) &&
  decide ((z : ℚ) < p.2.2) && decide (p.2.2 < (z : ℚ) + (dz : ℚ))

/-- One iteration of the while-loop of `PtAnnotator3DWidget.generator`
(lines 290-318).  The source destructures the configured chunk shape as
`dx, dz, dy = self.chunk_shape` — note the order: `dz` receives the second
spinner value and `dy` the third — and then uses `dx`, `dy`, `dz` for axes
0, 1, 2 respectively, both for the offset bounds and for the slicing.
Python evaluates the three `randint` calls left to right and raises at the
first non-positive bound; this returns `none` exactly when some bound is
non-positive, which is the same raised-or-yielded behaviour. -/
def generator_step (ds : Dataset) (csv_points : List Pt) (channel channel_coloc : Nat)
    (chunk_shape : Triple) (r : Triple) : Option Chunk :=
  let dx := chunk_shape.1
  let dz := chunk_shape.2.1
  let dy := chunk_shape.2.2
  match npRandint ((ds.extents.1 : Int) - (dx : Int)) r.1,
        npRandint ((ds.extents.2.1 : Int) - (dy : Int)) r.2.1,
        npRandint ((ds.extents.2.2 : Int) - (dz : Int)) r.2.2 with
  | some x, some y, some z =>
      some { channel := if ds.no_channels then none else some channel
             channel_coloc :=
               if ds.no_channels then none
               else if channel = channel_coloc then none else some channel_coloc
             offset := (x, y, z)
             dims := (dx, dy, dz)
             points := csv_points.filter (in_open_box x y z dx dy dz) }
  | _, _, _ => none

/-! ### The point CSV store (`_load_csv` / `save_and_update`)

The point CSV is manipulated through Python's `csv` module, so it is modelled
at the row level; a cell is either a literal string or a numeric value.  The
program writes numbers with `repr`, and CPython's float-repr round trip is
exact, so a numeric cell reads back as the same rational. -/

/-- One CSV cell. -/
inductive Cell where
  | str (s : List Char)
  | num (q : ℚ)
deriving DecidableEq

/-- The header row `index,axis-0,axis-1,axis-2` of the point CSV. -/
def pt_header : List Cell :=
  [.str "index".toList, .str "axis-0".toList, .str "axis-1".toList, .str "axis-2".toList]

/-- Python `float(cell)`: a numeric cell reads back exactly; the literal
strings this file contains (the header words) raise `ValueError`. -/
def cellFloat? : Cell → Option ℚ
  | .num q => some q
  | .str _ => none

/-- One data row of `_load_csv` (line 244): the leading index cell is dropped
(`line[1:]`) and the remaining cells are parsed as floats.  The loaded rows
are consumed by unpacking into coordinate triples, so a row must carry
exactly three coordinate cells. -/
def row_point? (row : List Cell) : Option Pt :=
  match row.drop 1 with
  | [a, b, c] =>
      match cellFloat? a, cellFloat? b, cellFloat? c with
      | some x, some y, some z => some (x, y, z)
      | _, _, _ => none
  | _ => none

/-- The list comprehension of `_load_csv` over the data rows: parses each row
in order and raises (`none`) at the first unparsable row. -/
def rows_points? : List (List Cell) → Option (List Pt)
  | [] => some []
  | row :: rows =>
      match row_point? row, rows_points? rows with
      | some p, some ps => some (p :: ps)
      | _, _ => none

/-- `_load_csv` (lines 242-245): drop the header row (`[1:]`), then parse each
remaining row with its index column excluded. -/
def load_csv_rows (rows : List (List Cell)) : Option (List Pt) :=
  rows_points? (rows.drop 1)

/-- `np.round`: round to the nearest integer, ties to even. -/
def np_round (q : ℚ) : ℤ :=
  if Int.fract q = 1 / 2 then (if 2 ∣ ⌊q⌋ then ⌊q⌋ else ⌊q⌋ + 1) else round q

/-- Translation of one newly drawn point in `save_and_update` (line 387):
`[np.round(x) + ox, np.round(y) + oy, np.round(z) + oz]`. -/
def round_plus_offset (off : Triple) (p : Pt) : Pt :=
  (((np_round p.1 + (off.1 : ℤ) : ℤ) : ℚ),
   ((np_round p.2.1 + (off.2.1 : ℤ) : ℤ) : ℚ),
   ((np_round p.2.2 + (off.2.2 : ℤ) : ℤ) : ℚ))

/-- The in-memory update of `save_and_update` (lines 386-389): the translated
new points are appended to the end of the point list. -/
def save_and_update_points (csv_points new_points : List Pt) (off : Triple) : List Pt :=
  csv_points ++ new_points.map (round_plus_offset off)

/-- The rows `[[i, x, y, z] for i, (x, y, z) in enumerate(...)]` starting at
index `i` (models `enumerate`). -/
def point_rows_from : Nat → List Pt → List (List Cell)
  | _, [] => []
  | i, p :: ps =>
      [.num (i : ℚ), .num p.1, .num p.2.1, .num p.2.2] :: point_rows_from (i + 1) ps

/-- The full rewrite of the point CSV in `save_and_update` (lines 383-396):
header row followed by one freshly 0-indexed row per point. -/
def save_and_update_file (csv_points new_points : List Pt) (off : Triple) : List (List Cell) :=
  pt_header :: point_rows_from 0 (save_and_update_points csv_points new_points off)

/-! ### The bounding-box recorder

The bounding-box CSV is read back through raw string operations
(`recent_chunk[:recent_chunk.index(",")]`, `int(...)`), so this file is
modelled as a list of raw lines (terminators stripped; Python's `int` ignores
surrounding whitespace, so stripping the terminator preserves the parse). -/

/-- The 17 path vertices of the module-level `BOX_PATHS` array. -/
def BOX_PATHS : List Triple :=
  [(0, 0, 0), (1, 0, 0), (1, 1, 0), (0, 1, 0), (0, 0, 0), (0, 0, 1), (1, 0, 1),
   (1, 1, 1), (0, 1, 1), (0, 0, 1), (0, 0, 0), (1, 0, 0), (1, 0, 1), (1, 1, 1),
   (1, 1, 0), (0, 1, 0), (0, 1, 1)]

/-- One vertex of `self.offset + BOX_PATHS * self._chunk_shape` (line 261). -/
def bbox_vertex (offset chunk_shape p : Triple) : Triple :=
  (offset.1 + p.1 * chunk_shape.1,
   offset.2.1 + p.2.1 * chunk_shape.2.1,
   offset.2.2 + p.2.2 * chunk_shape.2.2)

/-- One serialized row `[idx, "path", e, vx, vy, vz]` of the bounding-box CSV. -/
def bbox_row (idx : Int) (e : Nat) (v : Triple) : List Char :=
  intRepr idx ++ ',' ::
    ("path".toList ++ ',' ::
      (natRepr e ++ ',' ::
        (natRepr v.1 ++ ',' :: (natRepr v.2.1 ++ ',' :: natRepr v.2.2))))

/-- `_generate_bbox_export` (lines 258-262), serialized: one row per
`BOX_PATHS` vertex, all tagged with the same index `idx`. -/
def generate_bbox_export (offset chunk_shape : Triple) (idx : Int) : List (List Char) :=
  BOX_PATHS.enum.map fun ep => bbox_row idx ep.1 (bbox_vertex offset chunk_shape ep.2)

/-- `recent_chunk[:recent_chunk.index(",")]`: the segment before the first
comma; `str.index` raises `ValueError` (`none`) when no comma occurs. -/
def upToComma? : List Char → Option (List Char)
  | [] => none
  | c :: cs => if c = ',' then some [] else (upToComma? cs).map (fun pre => c :: pre)

/-- `int(recent_chunk[:recent_chunk.index(",")])`; `none` when either the
comma search or the integer parse raises. -/
def leadingIndex? (line : List Char) : Option Int :=
  (upToComma? line).bind pyInt?

/-- Lines 399-402: the next bounding-box index is one plus the parsed leading
integer of the last line, and the bare `except` defaults it to 0 on any
parse failure. -/
def nextBBoxIdx (last : List Char) : Int :=
  match leadingIndex? last with
  | some n => n + 1
  | none => 0

/-- Lines 397-404 of `save_and_update`: the bounding-box file is opened in
`r+` mode, fully read (leaving the file position at the end), and the 17 rows
are appended; `readlines()[-1]` is outside the `try` and raises `IndexError`
(`none`) on an empty file. -/
def bbox_append (file : List (List Char)) (offset chunk_shape : Triple) :
    Option (List (List Char)) :=
  match file.getLast? with
  | none => none
  | some last => some (file ++ generate_bbox_export offset chunk_shape (nextBBoxIdx last))

/-! ### `save_chunk` file naming -/

/-- Python's slice `[... : -4]` applied after a `drop`: removes the final four
characters (fewer when the string is shorter). -/
def pyTrimEnd4 (l : List Char) : List Char := l.take (l.length - 4)

/-- `f[len(fname) + 1 : -4]` (line 410). -/
def suffix_field (fname f : List Char) : List Char :=
  pyTrimEnd4 (f.drop (fname.length + 1))

/-- Lines 410-411: `files = [0] + [int(f[len(fname)+1:-4]) for f in listdir]`,
then `i = max(files) + 1`; `none` when some filename's slice fails to parse
as an integer (an uncaught `ValueError`). -/
def save_chunk_index? (fname : List Char) (files : List (List Char)) : Option Int :=
  (files.mapM fun f => pyInt? (suffix_field fname f)).map
    (fun ns => ns.foldl max 0 + 1)

/-- A destination filename `f"{fname}_{i:04d}{ext}"`. -/
def chunk_file_name (fname : List Char) (i : Int) (ext : List Char) : List Char :=
  fname ++ '_' :: (pyFormat04d i ++ ext)

/-- The image and CSV filenames `save_chunk` writes (lines 412-413). -/
def save_chunk_names? (fname : List Char) (files : List (List Char)) :
    Option (List Char × List Char) :=
  (save_chunk_index? fname files).map fun i =>
    (chunk_file_name fname i ['.', 't', 'i', 'f'],
     chunk_file_name fname i ['.', 'c', 's', 'v'])

/-! ### The widget state and `confirm`

`self.settings` (lines 196-198) is the tuple
`(self.channel, self.channel_coloc, self.chunk_shape)`.  Its first two
components are the magicgui spin-box *objects*, assigned once in `__init__`
and never replaced; CPython's tuple comparison compares elements with
`PyObject_RichCompareBool`, which succeeds immediately on identical objects,
so these two components compare equal in every comparison the widget ever
performs, regardless of the spin boxes' current values.  They are modelled by
the constant object identities below; the spin boxes' numeric values live in
separate state fields. -/

/-- Object identity of the two channel spin-box widgets. -/
inductive WidgetObj where
  | channelSpin
  | colocSpin
deriving DecidableEq

/-- The value of the `settings` property. -/
structure Settings where
  channel_obj : WidgetObj
  channel_coloc_obj : WidgetObj
  chunk_shape : Triple
deriving DecidableEq

/-- `self.settings` as a function of the configuration: the two value
arguments are deliberately unused because the source stores the widget
objects, not `.value`s. -/
def settings_of (channel_value channel_coloc_value : Nat) (chunk_shape : Triple) : Settings :=
  ⟨WidgetObj.channelSpin, WidgetObj.colocSpin, chunk_shape⟩

/-- The `self.backup` dict written by `_prepare_backup` (lines 325-331). -/
structure Backup where
  points_layer_data : List Pt
  offset : Triple
  settings : Settings
deriving DecidableEq

/-- The widget state touched by `confirm`/`save_and_update`.  Layers are
represented by their data (`none` = layer absent).  `chunk_shape_cache` is
`self._chunk_shape`; the `chunk_shape` property returns the cache when set and
the spinner values otherwise (the property's cache-filling write is elided:
between any fill and the next reset the spinners are not re-read, so reads
agree). -/
structure WState where
  data : Option Dataset
  csv_points : Option (List Pt)
  channel_value : Nat
  channel_coloc_value : Nat
  chunk_spins : Triple
  chunk_shape_cache : Option Triple
  offset : Triple
  tmp : Option Chunk
  backup : Option Backup
  img_layer : Option Chunk
  csv_layer : Option (List Pt)
  points_layer : Option (List Pt)
  points_file : List (List Cell)
  bbox_file : List (List Char)
deriving DecidableEq

/-- The `chunk_shape` property (lines 186-190). -/
def chunk_shape_of (s : WState) : Triple := s.chunk_shape_cache.getD s.chunk_spins

/-- The `settings` property (lines 196-198). -/
def settings_prop (s : WState) : Settings :=
  settings_of s.channel_value s.channel_coloc_value (chunk_shape_of s)

/-- `_prepare_backup` (lines 325-331): a no-op unless a new-points layer
exists. -/
def prepare_backup (s : WState) : WState :=
  match s.points_layer with
  | none => s
  | some pts => { s with backup := some ⟨pts, s.offset, settings_prop s⟩ }

/-- `save_and_update` (lines 381-404): rewrite the point CSV with the
backed-up new points appended, update `self.csv_points`, and append the
bounding-box rows.  `none` models an uncaught exception (missing backup,
missing point list, or an empty bounding-box file); partially written files
on such an exception are not tracked. -/
def save_and_update_st (s : WState) : Option WState :=
  match s.backup, s.csv_points with
  | some bk, some cps =>
      let new_points := save_and_update_points cps bk.points_layer_data bk.offset
      match bbox_append s.bbox_file s.offset (chunk_shape_of s) with
      | none => none
      | some bfile =>
          some { s with csv_points := some new_points
                        points_file := pt_header :: point_rows_from 0 new_points
                        bbox_file := bfile }
  | _, _ => none

/-- `confirm` (lines 333-379).  `r` feeds a fresh generator draw at line 360,
`r2` the prefetch draw of `_prepare_next_batch` at line 379 (the background
tasks are modelled as running to completion in program order).  The result is
`some (warned, s')` where `warned` records that a warning was shown and the
action aborted; `none` models an uncaught exception. -/
def confirm (s : WState) (r r2 : Triple) : Option (Bool × WState) :=
  match s.data, s.csv_points with
  | some ds, some cps =>
      if prod3 s.chunk_spins = 0 then some (true, s)
      else
        let s1 := prepare_backup s
        let s2? : Option WState :=
          if s1.csv_layer.isSome then
            save_and_update_st { s1 with img_layer := none, csv_layer := none, points_layer := none }
          else some s1
        match s2? with
        | none => none
        | some s2 =>
            let s3 : WState := { s2 with chunk_shape_cache := none }
            let cps3 := s3.csv_points.getD cps
            let fresh? : Option Chunk :=
              generator_step ds cps3 s3.channel_value s3.channel_coloc_value (chunk_shape_of s3) r
            let disp? : Option (Chunk × Bool) :=
              match s3.tmp, s3.backup with
              | some c, some bk =>
                  if settings_prop s3 = bk.settings then some (c, false)
                  else fresh?.map (fun ch => (ch, true))
              | some _, none => none
              | none, _ => fresh?.map (fun ch => (ch, true))
            match disp? with
            | none => none
            | some (ch, fresh) =>
                let s4 : WState :=
                  { s3 with offset := if fresh then ch.offset else s3.offset
                            tmp := none
                            img_layer := some ch
                            csv_layer := some ch.points
                            points_layer := some [] }
                let s5 : WState :=
                  match generator_step ds (s4.csv_points.getD cps) s4.channel_value
                      s4.channel_coloc_value (chunk_shape_of s4) r2 with
                  | some c2 => { s4 with tmp := some c2, offset := c2.offset }
                  | none => s4
                some (false, s5)
  | _, _ => some (true, s)

/-! ### Concrete example states -/

/-- A chunk prefetched while the primary channel spinner was 0 (its secondary
channel was 1, the colocalisation value at prefetch time). -/
def stale_chunk : Chunk :=
  { channel := some 0, channel_coloc := some 1, offset := (3, 3, 3),
    dims := (2, 2, 2), points := [] }

/-- A widget state right after the user changed the primary channel from 0 to
1 while `stale_chunk` sits in `self.tmp`: the chunk-shape spinners are
unchanged since the prefetch (cache and spinners both `(2,2,2)`), a
new-points layer exists from the previous confirm (empty), and the CSV layer
was removed from the viewer by the user, so the save branch is skipped. -/
def c3_state : WState :=
  { data := some ⟨false, (10, 10, 10)⟩
    csv_points := some []
    channel_value := 1
    channel_coloc_value := 1
    chunk_spins := (2, 2, 2)
    chunk_shape_cache := some (2, 2, 2)
    offset := (0, 0, 0)
    tmp := some stale_chunk
    backup := some ⟨[], (0, 0, 0), settings_of 0 1 (2, 2, 2)⟩
    img_layer := some stale_chunk
    csv_layer := none
    points_layer := some []
    points_file := []
    bbox_file := [] }

/-- A widget state with no dataset loaded. -/
def c8_state : WState :=
  { data := none
    csv_points := some []
    channel_value := 0
    channel_coloc_value := 0
    chunk_spins := (4, 4, 4)
    chunk_shape_cache := none
    offset := (0, 0, 0)
    tmp := none
    backup := none
    img_layer := none
    csv_layer := none
    points_layer := none
    points_file := []
    bbox_file := [] }

/-- The header line created for the bounding-box CSV (line 206). -/
def bbox_header_line : List Char :=
  "index,shape-type,vertex-index,axis-0,axis-1,axis-2".toList

/-! ### Lemmas about digits and parsing -/

theorem isDigitChar_digitChar (m : Nat) : isDigitChar (digitChar m) = true := by
  rcases m with _|_|_|_|_|_|_|_|_|m <;> rfl

theorem digitVal_digitChar {m : Nat} (h : m < 10) : digitVal (digitChar m) = m := by
  interval_cases m <;> rfl

theorem ne_signs_of_isDigitChar {c : Char} (h : isDigitChar c = true) :
    c ≠ '-' ∧ c ≠ '+' ∧ c ≠ ',' := by
  refine ⟨?_, ?_, ?_⟩ <;> rintro rfl <;> simp [isDigitChar] at h

theorem digitChar_ne_minus (m : Nat) : digitChar m ≠ '-' :=
  (ne_signs_of_isDigitChar (isDigitChar_digitChar m)).1

theorem digitChar_ne_plus (m : Nat) : digitChar m ≠ '+' :=
  (ne_signs_of_isDigitChar (isDigitChar_digitChar m)).2.1

theorem digitChar_ne_comma (m : Nat) : digitChar m ≠ ',' :=
  (ne_signs_of_isDigitChar (isDigitChar_digitChar m)).2.2

theorem parseDigits?_eq_foldl :
    ∀ (cs : List Char) (acc : Nat), (∀ c ∈ cs, isDigitChar c = true) →
      parseDigits? acc cs = some (cs.foldl (fun a c => a * 10 + digitVal c) acc) := by
  intro cs
  induction cs with
  | nil => intro acc _; rfl
  | cons c cs ih =>
      intro acc h
      have hc : isDigitChar c = true := h c (List.mem_cons_self c cs)
      have hcs : ∀ x ∈ cs, isDigitChar x = true := fun x hx => h x (List.mem_cons_of_mem c hx)
      simp [parseDigits?, hc, ih _ hcs]

theorem natRepr_ne_nil (n : Nat) : natRepr n ≠ [] := by
  rw [natRepr]
  split
  · simp
  · simp

theorem natRepr_all_digits (n : Nat) : ∀ c ∈ natRepr n, isDigitChar c = true := by
  induction n using natRepr.induct with
  | case1 n h =>
      rw [natRepr, dif_pos h]
      intro c hc
      rcases List.mem_singleton.mp hc with rfl
      exact isDigitChar_digitChar n
  | case2 n h ih =>
      rw [natRepr, dif_neg h]
      intro c hc
      rcases List.mem_append.mp hc with hc | hc
      · exact ih c hc
      · rcases List.mem_singleton.mp hc with rfl
        exact isDigitChar_digitChar (n % 10)

theorem natRepr_foldl (n : Nat) :
    ∀ acc : Nat, (natRepr n).foldl (fun a c => a * 10 + digitVal c) acc
      = acc * 10 ^ (natRepr n).length + n := by
  induction n using natRepr.induct with
  | case1 n h =>
      intro acc
      rw [natRepr, dif_pos h]
      simp [digitVal_digitChar h]
  | case2 n h ih =>
      intro acc
      rw [natRepr, dif_neg h]
      rw [List.foldl_append, ih acc]
      have h10 : n % 10 < 10 := Nat.mod_lt _ (by omega)
      simp only [List.foldl_cons, List.foldl_nil, List.length_append, List.length_singleton]
      rw [digitVal_digitChar h10]
      have : acc * 10 ^ (natRepr (n / 10)).length * 10 = acc * 10 ^ ((natRepr (n / 10)).length + 1) := by
        ring
      omega

theorem parseNat?_natRepr (n : Nat) : parseNat? (natRepr n) = some n := by
  obtain ⟨c, cs, hcc⟩ : ∃ c cs, natRepr n = c :: cs := by
    cases hrn : natRepr n with
    | nil => exact absurd hrn (natRepr_ne_nil n)
    | cons c cs => exact ⟨c, cs, rfl⟩
  rw [hcc, parseNat?, ← hcc]
  rw [parseDigits?_eq_foldl _ _ (natRepr_all_digits n), natRepr_foldl n 0]
  simp

theorem foldl_replicate_zeros (k : Nat) (acc : Nat) :
    (List.replicate k '0').foldl (fun a c => a * 10 + digitVal c) acc = acc * 10 ^ k := by
  induction k generalizing acc with
  | zero => simp
  | succ k ih =>
      rw [List.replicate_succ, List.foldl_cons, ih]
      have : digitVal '0' = 0 := rfl
      rw [this]
      ring

theorem parseNat?_padZeros (w : Nat) (n : Nat) :
    parseNat? (padZeros w (natRepr n)) = some n := by
  unfold padZeros
  obtain ⟨c, cs, hcc⟩ : ∃ c cs, List.replicate (w - (natRepr n).length) '0' ++ natRepr n = c :: cs := by
    cases hrn : List.replicate (w - (natRepr n).length) '0' ++ natRepr n with
    | nil =>
        exfalso
        have := List.append_eq_nil.mp hrn
        exact natRepr_ne_nil n this.2
    | cons c cs => exact ⟨c, cs, rfl⟩
  rw [hcc, parseNat?, ← hcc]
  have hdig : ∀ c ∈ List.replicate (w - (natRepr n).length) '0' ++ natRepr n, isDigitChar c = true := by
    intro c hc
    rcases List.mem_append.mp hc with hc | hc
    · rcases List.eq_of_mem_replicate hc with rfl; rfl
    · exact natRepr_all_digits n c hc
  rw [parseDigits?_eq_foldl _ _ hdig, List.foldl_append, foldl_replicate_zeros, natRepr_foldl]
  simp

theorem natRepr_head_digit (n : Nat) :
    ∃ d rest, d < 10 ∧ natRepr n = digitChar d :: rest := by
  induction n using natRepr.induct with
  | case1 n h =>
      exact ⟨n, [], h, by rw [natRepr, dif_pos h]⟩
  | case2 n h ih =>
      obtain ⟨d, rest, hd, hrepr⟩ := ih
      exact ⟨d, rest ++ [digitChar (n % 10)], hd, by rw [natRepr, dif_neg h, hrepr]; rfl⟩

theorem pyInt?_of_unsigned {cs : List Char} (h1 : cs.head? ≠ some '-')
    (h2 : cs.head? ≠ some '+') : pyInt? cs = (parseNat? cs).map (fun n : Nat => (n : Int)) := by
  rw [pyInt?, if_neg h1, if_neg h2]

theorem pyInt?_natRepr (n : Nat) : pyInt? (natRepr n) = some (n : Int) := by
  obtain ⟨d, rest, hd, hrepr⟩ := natRepr_head_digit n
  rw [pyInt?_of_unsigned (by rw [hrepr]; simpa using digitChar_ne_minus d)
    (by rw [hrepr]; simpa using digitChar_ne_plus d)]
  rw [parseNat?_natRepr]
  rfl

theorem pyInt?_padZeros_natRepr (w n : Nat) :
    pyInt? (padZeros w (natRepr n)) = some (n : Int) := by
  obtain ⟨d, rest, hd, hrepr⟩ := natRepr_head_digit n
  have hhead : (padZeros w (natRepr n)).head? ≠ some '-'
      ∧ (padZeros w (natRepr n)).head? ≠ some '+' := by
    unfold padZeros
    cases hw : w - (natRepr n).length with
    | zero =>
        simp only [List.replicate_zero, List.nil_append, hrepr]
        exact ⟨by simpa using digitChar_ne_minus d, by simpa using digitChar_ne_plus d⟩
    | succ k =>
        simp [List.replicate_succ]
  rw [pyInt?_of_unsigned hhead.1 hhead.2, parseNat?_padZeros]
  rfl

theorem pyInt?_intRepr (i : Int) : pyInt? (intRepr i) = some i := by
  by_cases hi : i < 0
  · rw [intRepr, if_pos hi]
    have h1 : (('-' :: natRepr (-i).toNat) : List Char).head? = some '-' := rfl
    rw [pyInt?, if_pos h1, List.tail_cons, parseNat?_natRepr, Option.map_some']
    congr 1
    omega
  · rw [intRepr, if_neg hi, pyInt?_natRepr]
    congr 1
    omega

theorem comma_not_mem_natRepr (n : Nat) : ',' ∉ natRepr n := by
  intro hmem
  have := natRepr_all_digits n ',' hmem
  exact absurd this (by decide)

theorem comma_not_mem_intRepr (i : Int) : ',' ∉ intRepr i := by
  rw [intRepr]
  split
  · intro hmem
    rcases List.mem_cons.mp hmem with h | h
    · exact absurd h (by decide)
    · exact comma_not_mem_natRepr _ h
  · exact comma_not_mem_natRepr _

theorem natRepr_length_le {k n : Nat} (hk : 1 ≤ k) (hn : n < 10 ^ k) :
    (natRepr n).length ≤ k := by
  induction k generalizing n with
  | zero => omega
  | succ k ih =>
      by_cases h : n < 10
      · rw [natRepr, dif_pos h]
        simp
      · rw [natRepr, dif_neg h]
        have hk1 : 1 ≤ k := by
          by_contra hk0
          have : k = 0 := by omega
          subst this
          simp at hn
          omega
        have hdiv : n / 10 < 10 ^ k := by
          rw [Nat.div_lt_iff_lt_mul (by omega)]
          calc n < 10 ^ (k + 1) := hn
            _ = 10 ^ k * 10 := by ring
        have := ih hk1 hdiv
        simp only [List.length_append, List.length_singleton]
        omega

/-! ### Lemmas about the generator -/

theorem npRandint_some {bound : Int} {r x : Nat} (h : npRandint bound r = some x) :
    0 < bound ∧ (x : Int) < bound := by
  unfold npRandint at h
  split at h
  · rename_i hb
    refine ⟨hb, ?_⟩
    have hx : x = r % bound.toNat := by exact (Option.some.inj h).symm
    have hbt : 0 < bound.toNat := by omega
    have := Nat.mod_lt r hbt
    omega
  · exact absurd h (by simp)

/-- What the generator actually guarantees: the slice taken at the drawn
offset stays inside the dataset, with the configured shape's axis-1 and
axis-2 entries exchanged (`dx, dz, dy = self.chunk_shape`). -/
theorem generator_step_inbounds (ds : Dataset) (csv_points : List Pt)
    (channel channel_coloc : Nat) (chunk_shape r : Triple) (ch : Chunk)
    (h : generator_step ds csv_points channel channel_coloc chunk_shape r = some ch) :
    ch.offset.1 + chunk_shape.1 ≤ ds.extents.1
    ∧ ch.offset.2.1 + chunk_shape.2.2 ≤ ds.extents.2.1
    ∧ ch.offset.2.2 + chunk_shape.2.1 ≤ ds.extents.2.2 := by
  unfold generator_step at h
  dsimp only at h
  cases hx : npRandint ((ds.extents.1 : Int) - (chunk_shape.1 : Int)) r.1 with
  | none => rw [hx] at h; simp at h
  | some x =>
    cases hy : npRandint ((ds.extents.2.1 : Int) - (chunk_shape.2.2 : Int)) r.2.1 with
    | none => rw [hx, hy] at h; simp at h
    | some y =>
      cases hz : npRandint ((ds.extents.2.2 : Int) - (chunk_shape.2.1 : Int)) r.2.2 with
      | none => rw [hx, hy, hz] at h; simp at h
      | some z =>
        rw [hx, hy, hz] at h
        have hxb := npRandint_some hx
        have hyb := npRandint_some hy
        have hzb := npRandint_some hz
        have hoff : ch.offset = (x, y, z) := by
          cases (Option.some.inj h).symm; rfl
        rw [hoff]
        simp only
        omega

/-! ### Lemmas about the point-CSV round trip -/

theorem rows_points?_point_rows : ∀ (l : List Pt) (i : Nat),
    rows_points? (point_rows_from i l) = some l := by
  intro l
  induction l with
  | nil => intro i; rfl
  | cons p ps ih =>
      intro i
      simp [point_rows_from, rows_points?, row_point?, cellFloat?, ih (i + 1)]

theorem point_rows_getElem? : ∀ (l : List Pt) (i j : Nat),
    (point_rows_from i l)[j]?
      = (l[j]?).map (fun p => [Cell.num ((i + j : Nat) : ℚ), .num p.1, .num p.2.1, .num p.2.2]) := by
  intro l
  induction l with
  | nil => intro i j; simp [point_rows_from]
  | cons p ps ih =>
      intro i j
      cases j with
      | zero => simp [point_rows_from]
      | succ j =>
          simp only [point_rows_from, List.getElem?_cons_succ, ih (i + 1) j]
          have hidx : i + 1 + j = i + (j + 1) := by omega
          rw [hidx]

/-! ### Lemmas about the bounding-box rows -/

theorem upToComma?_append (pre suf : List Char) (h : ',' ∉ pre) :
    upToComma? (pre ++ ',' :: suf) = some pre := by
  induction pre with
  | nil => rfl
  | cons c cs ih =>
      have hc : ¬ (c = ',') := fun hcc => h (hcc ▸ List.mem_cons_self c cs)
      have hcs : ',' ∉ cs := fun hmem => h (List.mem_cons_of_mem c hmem)
      simp [upToComma?, hc, ih hcs]

theorem leadingIndex?_bbox_row (idx : Int) (e : Nat) (v : Triple) :
    leadingIndex? (bbox_row idx e v) = some idx := by
  unfold leadingIndex? bbox_row
  rw [upToComma?_append _ _ (comma_not_mem_intRepr idx)]
  simp [pyInt?_intRepr]

theorem generate_bbox_export_length (offset chunk_shape : Triple) (idx : Int) :
    (generate_bbox_export offset chunk_shape idx).length = 17 := by
  simp [generate_bbox_export, List.enum_length]
  rfl

/-! ### Lemmas about `save_chunk` filenames -/

theorem pyFormat04d_ofNat (n : Nat) : pyFormat04d (n : Int) = padZeros 4 (natRepr n) := by
  unfold pyFormat04d
  rw [if_neg (by omega : ¬ ((n : Int) < 0))]
  rfl

theorem padZeros4_length {n : Nat} (hn : n < 10000) :
    (padZeros 4 (natRepr n)).length = 4 := by
  unfold padZeros
  rw [List.length_append, List.length_replicate]
  have := natRepr_length_le (k := 4) (by omega) (by omega : n < 10 ^ 4)
  omega

theorem suffix_field_scheme (fname ext : List Char) (n : Nat) (hn : n < 10000)
    (hext : ext.length = 4) :
    suffix_field fname (chunk_file_name fname (n : Int) ext) = padZeros 4 (natRepr n) := by
  unfold chunk_file_name suffix_field
  rw [pyFormat04d_ofNat]
  have hsplit : fname ++ '_' :: (padZeros 4 (natRepr n) ++ ext)
      = (fname ++ ['_']) ++ (padZeros 4 (natRepr n) ++ ext) := by simp
  rw [hsplit]
  have hlen : fname.length + 1 = (fname ++ ['_']).length := by simp
  rw [hlen, List.drop_left]
  unfold pyTrimEnd4
  rw [List.length_append, padZeros4_length hn, hext]
  have h44 : (4 : Nat) + 4 - 4 = (padZeros 4 (natRepr n)).length := by
    rw [padZeros4_length hn]
  rw [h44, List.take_left]

theorem save_chunk_nums_eval (fname : List Char) : ∀ (specs : List (Nat × List Char)),
    (∀ sp ∈ specs, sp.1 < 10000 ∧ sp.2.length = 4) →
    (specs.map fun sp => chunk_file_name fname (sp.1 : Int) sp.2).mapM
        (fun f => pyInt? (suffix_field fname f))
      = some (specs.map fun sp => (sp.1 : Int)) := by
  intro specs
  induction specs with
  | nil => intro _; rfl
  | cons sp sps ih =>
      intro h
      have h1 := h sp (List.mem_cons_self sp sps)
      have h2 : ∀ x ∈ sps, x.1 < 10000 ∧ x.2.length = 4 :=
        fun x hx => h x (List.mem_cons_of_mem sp hx)
      simp only [List.map_cons, List.mapM_cons,
        suffix_field_scheme fname sp.2 sp.1 h1.1 h1.2, pyInt?_padZeros_natRepr, ih h2]
      rfl

/-! ### The claims -/

/-- Claim C1 (code-bug evaluation).  The claim says every chunk the generator
yields satisfies `o[i] + shape[i] ≤ extent[i]` for the configured chunk shape
in spinner order whenever that shape is strictly smaller than the extents.
With extents `(10,10,10)` and shape `(2,9,1)` (strictly smaller on every
axis), the admissible draws `(0,8,0)` — `np.random.randint(9)` can return 8 —
yield a chunk with offset `(0,8,0)`, and `8 + 9 ≤ 10` fails on axis 1: the
source destructures `dx, dz, dy = self.chunk_shape`, so the axis-1 offset
bound is computed from the *third* spinner value. -/
theorem c1_offset_violates_claimed_bound :
    (((2, 9, 1) : Triple).1 < ((10, 10, 10) : Triple).1
      ∧ ((2, 9, 1) : Triple).2.1 < ((10, 10, 10) : Triple).2.1
      ∧ ((2, 9, 1) : Triple).2.2 < ((10, 10, 10) : Triple).2.2)
    ∧ generator_step ⟨true, (10, 10, 10)⟩ [] 0 0 (2, 9, 1) (0, 8, 0)
        = some { channel := none, channel_coloc := none, offset := (0, 8, 0),
                 dims := (2, 1, 9), points := [] }
    ∧ ¬ (((0, 8, 0) : Triple).2.1 + ((2, 9, 1) : Triple).2.1
          ≤ ((10, 10, 10) : Triple).2.1) := by
  refine ⟨by decide, by decide, by decide⟩

/-- Claim C2 (code-bug evaluation).  The claim says a point is in the yielded
subset iff `offset[i] < p[i] < offset[i] + shape[i]` for the configured shape
in spinner order.  The point `(1, 5, 1/2)` satisfies that condition for
offset `(0,0,0)` and shape `(2,9,1)` on every axis, yet the yielded subset is
empty: the filter bounds axis 1 by `dy`, the *third* spinner value. -/
theorem c2_filter_misses_claimed_point :
    generator_step ⟨true, (10, 10, 10)⟩ [((1 : ℚ), 5, 1/2)] 0 0 (2, 9, 1) (0, 0, 0)
      = some { channel := none, channel_coloc := none, offset := (0, 0, 0),
               dims := (2, 1, 9), points := [] }
    ∧ ((0 : ℚ) < 1 ∧ (1 : ℚ) < 0 + 2)
    ∧ ((0 : ℚ) < 5 ∧ (5 : ℚ) < 0 + 9)
    ∧ ((0 : ℚ) < 1/2 ∧ (1/2 : ℚ) < 0 + 1) := by
  refine ⟨by norm_num [generator_step, npRandint, in_open_box, List.filter],
    by norm_num, by norm_num, by norm_num⟩

/-- Claim C3 (code-bug evaluation).  In `c3_state` the user changed the
primary channel value from 0 (at prefetch time, recorded in
`stale_chunk.channel`) to 1, with the chunk shape unchanged; the claim says
confirm must discard the prefetch and resample.  Instead confirm displays the
prefetched channel-0 chunk: the compared `settings` tuples hold the spin-box
widget objects, not their values, so a channel change is invisible to the
comparison. -/
theorem c3_stale_prefetch_survives_channel_change :
    c3_state.channel_value = 1
    ∧ c3_state.tmp = some stale_chunk
    ∧ stale_chunk.channel = some 0
    ∧ ∃ s' : WState, confirm c3_state (0, 0, 0) (1, 1, 1) = some (false, s')
        ∧ s'.img_layer = some stale_chunk := by
  exact ⟨rfl, rfl, rfl, _, rfl, rfl⟩

/-- Claim C4 (code-bug evaluation).  The claim says the generator raises
whenever the chunk extent exceeds the dataset extent on some spatial axis.
With extents `(10, 5, 20)` and shape `(2, 8, 3)` the axis-1 chunk extent 8
exceeds the axis-1 dataset extent 5, yet a chunk is yielded: because of
`dx, dz, dy = self.chunk_shape` the axis-1 bound is `5 - 3` and the axis-2
bound `20 - 8`, both positive. -/
theorem c4_oversized_axis_still_yields :
    ((10, 5, 20) : Triple).2.1 < ((2, 8, 3) : Triple).2.1
    ∧ generator_step ⟨true, (10, 5, 20)⟩ [] 0 0 (2, 8, 3) (0, 0, 0)
        = some { channel := none, channel_coloc := none, offset := (0, 0, 0),
                 dims := (2, 3, 8), points := [] } := by
  refine ⟨by decide, by decide⟩

/-- Claim C5 (round trip).  Writing the point list through
`save_and_update` and reloading it with `_load_csv` returns exactly the saved
list: previously stored points unchanged and in order, newly drawn points
modulo `np.round` plus the backed-up offset, the header and the index column
stripped. -/
theorem c5_csv_roundtrip (csv_points new_points : List Pt) (off : Triple) :
    load_csv_rows (save_and_update_file csv_points new_points off)
      = some (save_and_update_points csv_points new_points off)
    ∧ save_and_update_points csv_points new_points off
      = csv_points ++ new_points.map (round_plus_offset off) := by
  constructor
  · exact rows_points?_point_rows _ 0
  · rfl

/-- Claim C6 (save semantics).  On save the newly drawn points are translated
by `np.round` plus the backed-up offset and appended to the end of the
in-memory list, and the point CSV is rewritten in full as a header row
followed by one row per point whose leading cell is the point's 0-based
position. -/
theorem c6_save_and_update_semantics (csv_points new_points : List Pt) (off : Triple)
    (j : Nat) :
    save_and_update_points csv_points new_points off
      = csv_points ++ new_points.map (round_plus_offset off)
    ∧ save_and_update_file csv_points new_points off
      = pt_header :: point_rows_from 0 (csv_points ++ new_points.map (round_plus_offset off))
    ∧ (point_rows_from 0 (csv_points ++ new_points.map (round_plus_offset off)))[j]?
      = ((csv_points ++ new_points.map (round_plus_offset off))[j]?).map
          (fun p => [Cell.num (j : ℚ), .num p.1, .num p.2.1, .num p.2.2]) := by
  refine ⟨rfl, rfl, ?_⟩
  rw [point_rows_getElem?]
  simp

/-- Claim C7 (bounding-box append).  On a non-empty bounding-box file the save
step appends exactly 17 rows — one per `BOX_PATHS` vertex — every one of
whose leading index is `nextBBoxIdx last`, i.e. one plus the integer parsed
before the first comma of the file's previous last line, defaulting to 0
whenever that parse raises; the existing lines are preserved (append, never
rewrite). -/
theorem c7_bbox_append_semantics (file : List (List Char)) (offset chunk_shape : Triple)
    (last : List Char) (h : file.getLast? = some last) :
    bbox_append file offset chunk_shape
      = some (file ++ generate_bbox_export offset chunk_shape (nextBBoxIdx last))
    ∧ (generate_bbox_export offset chunk_shape (nextBBoxIdx last)).length = 17
    ∧ ∀ row ∈ generate_bbox_export offset chunk_shape (nextBBoxIdx last),
        leadingIndex? row = some (nextBBoxIdx last) := by
  refine ⟨?_, generate_bbox_export_length _ _ _, ?_⟩
  · unfold bbox_append
    rw [h]
  · intro row hrow
    obtain ⟨ep, _, rfl⟩ := List.mem_map.mp hrow
    exact leadingIndex?_bbox_row _ _ _

/-- Witness for C7: a file holding only the header line; the header's leading
field `index` is unparsable, so the appended rows carry index 0. -/
theorem c7_bbox_append_witness :
    [bbox_header_line].getLast? = some bbox_header_line
    ∧ bbox_append [bbox_header_line] (1, 2, 3) (4, 5, 6)
        = some ([bbox_header_line]
            ++ generate_bbox_export (1, 2, 3) (4, 5, 6) (nextBBoxIdx bbox_header_line))
    ∧ nextBBoxIdx bbox_header_line = 0 :=
  ⟨rfl, (c7_bbox_append_semantics [bbox_header_line] (1, 2, 3) (4, 5, 6)
      bbox_header_line rfl).1, by decide⟩

/-- Claim C8 (confirm preconditions).  With no dataset, no point CSV, or a
zero-volume chunk shape, `confirm` shows a warning and returns the state
untouched: no layers, files, offset or cached chunk change. -/
theorem c8_confirm_guard (s : WState) (r r2 : Triple)
    (h : s.data = none ∨ s.csv_points = none ∨ prod3 s.chunk_spins = 0) :
    confirm s r r2 = some (true, s) := by
  cases hdata : s.data with
  | none => simp [confirm, hdata]
  | some ds =>
      cases hcsv : s.csv_points with
      | none => simp [confirm, hdata, hcsv]
      | some cps =>
          rcases h with h | h | h
          · rw [hdata] at h; exact absurd h (by simp)
          · rw [hcsv] at h; exact absurd h (by simp)
          · simp [confirm, hdata, hcsv, h]

/-- Witness for C8: a state with no dataset loaded. -/
theorem c8_confirm_guard_witness :
    c8_state.data = none ∧ confirm c8_state (0, 0, 0) (0, 0, 0) = some (true, c8_state) :=
  ⟨rfl, c8_confirm_guard c8_state (0, 0, 0) (0, 0, 0) (Or.inl rfl)⟩

/-- Claim C9 (save-chunk numbering).  If every file in the destination folder
is named `<folder>_<dddd><4-char extension>` with a four-digit suffix, then
`save_chunk` writes `<folder>_<NNNN>.tif` and `<folder>_<NNNN>.csv` where
`NNNN` is one plus the largest existing suffix (and 1 in an empty folder,
since the source seeds the suffix list with 0). -/
theorem c9_save_chunk_names (fname : List Char) (specs : List (Nat × List Char))
    (h : ∀ sp ∈ specs, sp.1 < 10000 ∧ sp.2.length = 4) :
    save_chunk_names? fname (specs.map fun sp => chunk_file_name fname (sp.1 : Int) sp.2)
      = some
          (chunk_file_name fname ((specs.map fun sp => (sp.1 : Int)).foldl max 0 + 1)
            ['.', 't', 'i', 'f'],
           chunk_file_name fname ((specs.map fun sp => (sp.1 : Int)).foldl max 0 + 1)
            ['.', 'c', 's', 'v']) := by
  unfold save_chunk_names? save_chunk_index?
  rw [save_chunk_nums_eval fname specs h]
  rfl

/-- Witness for C9: a folder `img` holding `img_0007.tif` and `img_0007.csv`
produces `img_0008.tif` and `img_0008.csv`; an empty folder produces
`img_0001.tif` and `img_0001.csv`. -/
theorem c9_save_chunk_names_witness :
    save_chunk_names? ['i', 'm', 'g']
        ([(7, ['.', 't', 'i', 'f']), (7, ['.', 'c', 's', 'v'])].map
          fun sp => chunk_file_name ['i', 'm', 'g'] (sp.1 : Int) sp.2)
      = some (['i', 'm', 'g', '_', '0', '0', '0', '8', '.', 't', 'i', 'f'],
              ['i', 'm', 'g', '_', '0', '0', '0', '8', '.', 'c', 's', 'v'])
    ∧ save_chunk_names? ['i', 'm', 'g'] []
      = some (['i', 'm', 'g', '_', '0', '0', '0', '1', '.', 't', 'i', 'f'],
              ['i', 'm', 'g', '_', '0', '0', '0', '1', '.', 'c', 's', 'v']) := by
  have hn8 : natRepr 8 = ['8'] := by unfold natRepr; norm_num [digitChar]
  have hn1 : natRepr 1 = ['1'] := by unfold natRepr; norm_num [digitChar]
  have h8 : pyFormat04d 8 = ['0', '0', '0', '8'] := by
    simp [pyFormat04d, padZeros, hn8]
  have h1 : pyFormat04d 1 = ['0', '0', '0', '1'] := by
    simp [pyFormat04d, padZeros, hn1]
  constructor
  · refine (c9_save_chunk_names ['i', 'm', 'g']
      [(7, ['.', 't', 'i', 'f']), (7, ['.', 'c', 's', 'v'])] (by decide)).trans ?_
    have hfold : (([((7 : Nat), ['.', 't', 'i', 'f']), ((7 : Nat), ['.', 'c', 's', 'v'])].map
        fun sp => (sp.1 : Int)).foldl max 0 + 1 : Int) = 8 := by decide
    rw [hfold]
    simp [chunk_file_name, h8]
  · refine (c9_save_chunk_names ['i', 'm', 'g'] [] (by simp)).trans ?_
    have hfold : ((([] : List (Nat × List Char)).map fun sp => (sp.1 : Int)).foldl max 0 + 1 : Int) = 1 := by decide
    rw [hfold]
    simp [chunk_file_name, h1]

/-- Claim C10 (code-bug evaluation).  The claim says the generator raises when
the chunk extent exactly equals the dataset extent on some axis.  With
extents `(10, 5, 20)` and shape `(2, 5, 3)` the axis-1 extents coincide at 5,
yet a chunk is yielded: the axis-1 randint bound is `5 - 3`, positive,
because of `dx, dz, dy = self.chunk_shape`. -/
theorem c10_exact_fit_axis_still_yields :
    ((2, 5, 3) : Triple).2.1 = ((10, 5, 20) : Triple).2.1
    ∧ generator_step ⟨true, (10, 5, 20)⟩ [] 0 0 (2, 5, 3) (0, 0, 0)
        = some { channel := none, channel_coloc := none, offset := (0, 0, 0),
                 dims := (2, 3, 5), points := [] } := by
  refine ⟨by decide, by decide⟩

end PtAnnotator3D
